import Mathlib

/-!
Shallow embedding of the brainjelly audio pipeline
(`src/backend/app/audio/audio_loader.py`, `src/backend/app/audio/essentia_extraction.py`,
`src/backend/app/tasks/tasks.py`, `src/backend/app/routes/upload.py`, and the
SQLAlchemy models under `src/backend/app/models/`).

Conventions of the embedding:
* Python floats are modelled as exact rationals (`ℚ`); `float(...)` casts and the
  `astype(np.float32)` cast are identities in the exact model.
* numpy arrays of samples are `List ℚ` (1-D) or a list of rows plus a channel
  count (2-D); `np.mean(audio, axis=1)` is the arithmetic mean of each row.
* Exceptions are `Except` values; the SQLAlchemy session is explicit state
  (`DB`), a commit replaces the state, a rollback leaves it unchanged.
* Calls into external libraries (soundfile / audioread / ffmpeg / essentia)
  are parameters supplying the outcome of that call.
-/

namespace BrainJelly

/-- A Python value stored in a feature dictionary: `None`, a float, a string,
or a list of floats (the mfcc / envelope JSON payloads). -/
inductive Val where
  | null : Val
  | num (q : ℚ) : Val
  | str (s : String) : Val
  | arr (xs : List ℚ) : Val
deriving DecidableEq

/-- The loader exception taxonomy of `audio_loader.py`: `UnsupportedFormatError`,
`AudioDecodeError`, `EmptyAudioError`, `AudioTooShortError` (all subclasses of
`AudioLoaderError`). -/
inductive LoaderError where
  | unsupportedFormat (msg : String)
  | decodeFailure (msg : String)
  | emptyAudio (msg : String)
  | tooShort (msg : String)
deriving DecidableEq

/-- Raw decoded audio as returned by a decode backend: a 1-D sample array or a
2-D array of `rows.length` frames with `channels` samples each. -/
inductive RawAudio where
  | mono (samples : List ℚ) : RawAudio
  | multi (rows : List (List ℚ)) (channels : Nat) : RawAudio
deriving DecidableEq

/-- `audio.size` of the numpy array. -/
def audioSize : RawAudio → Nat
  | .mono samples => samples.length
  | .multi rows channels => rows.length * channels

/-- `np.mean(audio, axis=1)` when `audio.ndim > 1`, identity on 1-D input:
the mono downmix of `_post_process`. -/
def downmix : RawAudio → List ℚ
  | .mono samples => samples
  | .multi rows channels => rows.map (fun row => row.sum / (channels : ℚ))

/-- `MIN_DURATION_SECONDS = 0.5` from `audio_loader.py`. -/
def minDurationSeconds : ℚ := 1 / 2

/-- `SUPPORTED_FORMATS` from `audio_loader.py`. -/
def supportedFormats : List String := [".wav", ".mp3", ".aif", ".aiff", ".flac"]

/-- `_post_process(audio, samplerate)` from `audio_loader.py`: empty check,
mono downmix, float32 cast (identity here), duration checks, in source order. -/
def postProcess (audio : RawAudio) (samplerate : Int) :
    Except LoaderError (List ℚ × Int) :=
  if audioSize audio == 0 then
    .error (.emptyAudio "Decoded audio is empty")
  else
    let monoAudio := downmix audio
    let duration : ℚ := (monoAudio.length : ℚ) / (samplerate : ℚ)
    if duration ≤ 0 then
      .error (.emptyAudio "Decoded audio has zero duration")
    else if duration < minDurationSeconds then
      .error (.tooShort "Audio duration is less than minimum")
    else
      .ok (monoAudio, samplerate)

/-- Text of a loader error, standing in for `str(exc)`. -/
def errText : LoaderError → String
  | .unsupportedFormat msg => msg
  | .decodeFailure msg => msg
  | .emptyAudio msg => msg
  | .tooShort msg => msg

/-- The backend loop of `load_audio`: each backend either raises (its message is
remembered as `last_error`) or yields raw audio which is then post-processed;
a post-processing failure also falls through to the next backend. When every
backend has failed, `AudioDecodeError` is raised. -/
def loadAudioLoop :
    List (Except String (RawAudio × Int)) → Option String →
    Except LoaderError (List ℚ × Int)
  | [], _ => .error (.decodeFailure "Unable to decode audio file")
  | backend :: rest, _ =>
    match backend with
    | .error msg => loadAudioLoop rest (some msg)
    | .ok (raw, samplerate) =>
      match postProcess raw samplerate with
      | .ok result => .ok result
      | .error e => loadAudioLoop rest (some (errText e))

/-- `load_audio(path)` from `audio_loader.py`. The path is abstracted to the
two properties the function reads: whether the file exists and its lowered
suffix (`Path(path).suffix.lower()`); the three decode backends are abstracted
to the outcome each would produce if attempted, in their fixed order
(soundfile, audioread, ffmpeg). -/
def loadAudio (pathExists : Bool) (suffixLower : String)
    (backends : List (Except String (RawAudio × Int))) :
    Except LoaderError (List ℚ × Int) :=
  if !pathExists then
    .error (.decodeFailure "Audio file not found")
  else if !(supportedFormats.contains suffixLower) then
    .error (.unsupportedFormat "Unsupported audio format")
  else
    loadAudioLoop backends none

/-- Constructor tag of a loader result, used to compare error kinds. -/
def errKindOf : Except LoaderError (List ℚ × Int) → String
  | .ok _ => "ok"
  | .error (.unsupportedFormat _) => "UnsupportedFormat"
  | .error (.decodeFailure _) => "DecodeFailure"
  | .error (.emptyAudio _) => "EmptyAudio"
  | .error (.tooShort _) => "TooShort"

/-- The arguments of one `subprocess.run` invocation. `timeout` is `none` when
no `timeout=` keyword is passed (Python then waits indefinitely). -/
structure SubprocessRun where
  args : List String
  check : Bool
  timeout : Option ℚ
deriving DecidableEq

/-- The exact `subprocess.run` invocation made by `_load_with_ffmpeg` in
`audio_loader.py` (lines 114-129). -/
def ffmpegRun (ffmpegBinary path tmpPath : String) : SubprocessRun :=
  { args := [ffmpegBinary, "-loglevel", "error", "-y", "-i", path,
             "-ac", "1", "-ar", "44100", "-f", "wav", tmpPath]
    check := true
    timeout := none }

/-- Outcome of `_load_with_ffmpeg` given the subprocess exit code and the
samples `sf.read` would recover from the scratch file: with `check=True` a
non-zero exit raises `CalledProcessError`, re-raised as `AudioDecodeError`. -/
def loadWithFfmpeg (exitCode : Int) (readResult : RawAudio × Int) :
    Except String (RawAudio × Int) :=
  if exitCode != 0 then .error "ffmpeg failed to decode" else .ok readResult

/-- Python `dict` lookup `d.get(k)`: value of the first (unique) binding. -/
def lookupVal (d : List (String × Val)) (k : String) : Option Val :=
  (d.find? (fun kv => kv.1 == k)).map (fun kv => kv.2)

/-- Python `base.update(upd)`: existing keys are overwritten in place, new keys
are appended in the order of `upd`. -/
def dictUpdate (base upd : List (String × Val)) : List (String × Val) :=
  base.map (fun kv =>
    match upd.find? (fun kv2 => kv2.1 == kv.1) with
    | some kv2 => (kv.1, kv2.2)
    | none => kv)
  ++ upd.filter (fun kv2 => !(base.any (fun kv => kv.1 == kv2.1)))

/-- `d[k] = v` on a dict that already binds `k` (or appends it if absent). -/
def dictSet (d : List (String × Val)) (k : String) (v : Val) : List (String × Val) :=
  dictUpdate d [(k, v)]

/-- `_placeholder_features()` from `essentia_extraction.py`. -/
def placeholderFeatures : List (String × Val) :=
  [("spectral_centroid", Val.null),
   ("rms", Val.null),
   ("peak_amplitude", Val.null),
   ("mfcc", Val.arr (List.replicate 13 0)),
   ("bpm", Val.null),
   ("key", Val.null),
   ("key_strength", Val.null),
   ("rms_envelope", Val.arr []),
   ("spectral_flux", Val.null),
   ("rolloff", Val.null),
   ("flatness", Val.null)]

/-- Mean of a list of rationals (`np.mean` on a 1-D array). -/
def listMean (xs : List ℚ) : ℚ := xs.sum / (xs.length : ℚ)

/-- The module-level capability flags of `essentia_extraction.py`, resolved
once at import time by probing the optional essentia library. -/
structure EssentiaFlags where
  essentiaAvailable : Bool
  hasMaxPeak : Bool
  hasMfcc : Bool
  hasBpm : Bool
  hasKeyExtractor : Bool
  hasFrameGenerator : Bool
  hasSpectralShape : Bool
deriving DecidableEq

/-- Outcomes of the essentia library calls made inside `essentia_extraction`
for one input file: the decoded buffer size, the three baseline DSP values,
and for each extended family either its per-frame results or `none` when that
family raised (the per-family `except` blocks absorb the exception). -/
structure EssentiaOutcome where
  audioSize : Nat
  rmsValue : ℚ
  centroidValue : ℚ
  peakValue : ℚ
  envelopeValues : Option (List ℚ)
  shapeValues : Option (List (ℚ × ℚ × ℚ))
  mfccFrames : Option (List (List ℚ))
  bpmValue : Option ℚ
  keyValue : Option (String × String × ℚ)
deriving DecidableEq

/-- The RMS-envelope family block of `essentia_extraction` (lines 144-172):
guarded by the frame-generator flag and the buffer size; a raised family
(`none`) or an empty frame list keeps the placeholder. -/
def applyEnvelopeFamily (flags : EssentiaFlags) (outcome : EssentiaOutcome)
    (features : List (String × Val)) : List (String × Val) :=
  if flags.hasFrameGenerator && decide (0 < outcome.audioSize) then
    match outcome.envelopeValues with
    | some vs =>
      if vs.isEmpty then features else dictSet features "rms_envelope" (Val.arr vs)
    | none => features
  else features

/-- The spectral-shape family block of `essentia_extraction` (lines 174-218):
frame-averaged flux, rolloff and flatness. -/
def applyShapeFamily (flags : EssentiaFlags) (outcome : EssentiaOutcome)
    (features : List (String × Val)) : List (String × Val) :=
  if flags.hasSpectralShape && decide (0 < outcome.audioSize) then
    match outcome.shapeValues with
    | some frames =>
      if frames.isEmpty then features
      else
        dictSet
          (dictSet
            (dictSet features "spectral_flux"
              (Val.num (listMean (frames.map (fun f => f.1)))))
            "rolloff" (Val.num (listMean (frames.map (fun f => f.2.1)))))
          "flatness" (Val.num (listMean (frames.map (fun f => f.2.2))))
    | none => features
  else features

/-- The MFCC family block of `essentia_extraction` (lines 220-248): the mean
over frames of the 13 coefficients (`np.mean(mfcc_frames, axis=0)`). -/
def applyMfccFamily (flags : EssentiaFlags) (outcome : EssentiaOutcome)
    (features : List (String × Val)) : List (String × Val) :=
  if flags.hasMfcc && decide (0 < outcome.audioSize) then
    match outcome.mfccFrames with
    | some frames =>
      if frames.isEmpty then features
      else
        dictSet features "mfcc"
          (Val.arr ((frames.transpose).map (fun col => col.sum / (frames.length : ℚ))))
    | none => features
  else features

/-- The BPM family block of `essentia_extraction` (lines 250-260). -/
def applyBpmFamily (flags : EssentiaFlags) (outcome : EssentiaOutcome)
    (features : List (String × Val)) : List (String × Val) :=
  if flags.hasBpm then
    match outcome.bpmValue with
    | some bpm => dictSet features "bpm" (Val.num bpm)
    | none => features
  else features

/-- The key family block of `essentia_extraction` (lines 262-288): a minor
scale appends an `m` to the key name. -/
def applyKeyFamily (flags : EssentiaFlags) (suffixLower : String)
    (outcome : EssentiaOutcome) (features : List (String × Val)) :
    List (String × Val) :=
  if flags.essentiaAvailable && flags.hasKeyExtractor && (suffixLower == ".wav") then
    match outcome.keyValue with
    | some kv =>
      dictSet (dictSet features "key"
          (Val.str (if kv.2.1 == "major" then kv.1 else kv.1 ++ "m")))
        "key_strength" (Val.num kv.2.2)
    | none => features
  else features

/-- `essentia_extraction(track_path)` from `essentia_extraction.py`.
Returns the feature dict, or the empty dict to signal fallback: when the
capability is unavailable, when the file suffix (lowered) is not `.wav`,
or when the decoded buffer is empty. Otherwise the placeholder dict gets the
three baseline values and each extended family runs in its own guarded block.
The scale string handed to the key family is taken already lowered, as with
the path suffix. -/
def essentiaExtraction (flags : EssentiaFlags) (suffixLower : String)
    (outcome : EssentiaOutcome) : List (String × Val) :=
  if !flags.essentiaAvailable then []
  else if suffixLower != ".wav" then []
  else if outcome.audioSize == 0 then []
  else
    applyKeyFamily flags suffixLower outcome
      (applyBpmFamily flags outcome
        (applyMfccFamily flags outcome
          (applyShapeFamily flags outcome
            (applyEnvelopeFamily flags outcome
              (dictUpdate placeholderFeatures
                [("spectral_centroid", Val.num outcome.centroidValue),
                 ("rms", Val.num outcome.rmsValue),
                 ("peak_amplitude", Val.num outcome.peakValue)])))))

/-- `basic_extraction(track_path)` from `tasks.py`, after the decode: the three
baseline scalars are the values numpy computes from the decoded waveform
(`sqrt(mean(x**2))`, `mean(abs(rfft(x)))`, `max(abs(x))`), passed in here as
exact rationals; `essentiaResult` is what `essentia_extraction(track_path)`
returned (only consulted when the capability flag is set). -/
def basicExtraction (rms spectralCentroid peakAmplitude : ℚ)
    (essentiaAvailable : Bool) (essentiaResult : List (String × Val)) :
    List (String × Val) :=
  let placeholder : List (String × Val) :=
    [("spectral_centroid", Val.num spectralCentroid),
     ("rms", Val.num rms),
     ("peak_amplitude", Val.num peakAmplitude),
     ("mfcc", Val.arr (List.replicate 13 0)),
     ("bpm", Val.null),
     ("key", Val.null),
     ("key_strength", Val.null)]
  if essentiaAvailable then
    if essentiaResult.isEmpty then placeholder
    else dictUpdate placeholder (essentiaResult.filter (fun kv => kv.2 != Val.null))
  else placeholder

/-- One row of the `tracks` table (`models/track.py`). Timestamp columns are
omitted; `status` is a free string column with no database-level enum. -/
structure TrackRow where
  id : String
  original_filename : String
  stored_path : String
  status : String
  samplerate : Option Int
  duration : Option ℚ
  error_message : Option String
  has_similarity : Bool
deriving DecidableEq

/-- One row of the `audio_features` table (`models/audio_features.py`);
`track_id` carries a UNIQUE constraint. The four extra nullable columns
(rms_envelope, spectral_flux, rolloff, flatness) are never written by
`extract_features` (its `AudioFeature(...)` call does not pass them, so the
model constructor defaults them to NULL) and are not read by any embedded
operation, so they are left out of the row. -/
structure AudioFeatureRow where
  track_id : String
  rms : Option ℚ
  spectral_centroid : Option ℚ
  peak_amplitude : Option ℚ
  mfcc : Option (List ℚ)
  bpm : Option ℚ
  key : Option String
  key_strength : Option ℚ
deriving DecidableEq

/-- One row of the `similarity_scores` table (`models/similarity_score.py`). -/
structure SimilarityRow where
  source_track_id : String
  target_track_id : String
  score : ℚ
deriving DecidableEq

/-- The persisted store: the three tables, each as an ordered list of rows. -/
structure DB where
  tracks : List TrackRow
  features : List AudioFeatureRow
  scores : List SimilarityRow
deriving DecidableEq

/-- How a task invocation ends: a normal return value (a success dict, or a
dict carrying an `error` entry), or a propagated exception after rollback. -/
inductive TaskOutcome where
  | ok : TaskOutcome
  | computed (n : Nat) : TaskOutcome
  | errorValue (msg : String) : TaskOutcome
  | raised (msg : String) : TaskOutcome
deriving DecidableEq

/-- `session.query(Track).get(track_id)`. -/
def findTrack (db : DB) (trackId : String) : Option TrackRow :=
  db.tracks.find? (fun t => t.id == trackId)

/-- `track.features` relationship lookup (at most one row by uniqueness). -/
def findFeature (db : DB) (trackId : String) : Option AudioFeatureRow :=
  db.features.find? (fun f => f.track_id == trackId)

/-- `upload_track` from `routes/upload.py`, after the file is saved: the
pre-persist `load_audio` validation either fails (no track row is created and
the request returns an error) or a new `Track` row is inserted with
`status="processing"`. -/
def uploadTrack (db : DB) (trackId originalFilename storedPath : String)
    (validation : Except LoaderError (List ℚ × Int)) : DB × Bool :=
  match validation with
  | .error _ => (db, false)
  | .ok _ =>
    ({ db with tracks := db.tracks ++
        [{ id := trackId
           original_filename := originalFilename
           stored_path := storedPath
           status := "processing"
           samplerate := none
           duration := none
           error_message := none
           has_similarity := false }] }, true)

/-- `_update_track_record` from `tasks.py`: when the track exists, set status,
samplerate, duration and error_message and commit; otherwise no write. -/
def updateTrackRecord (db : DB) (trackId statusValue : String)
    (samplerate : Option Int) (duration : Option ℚ)
    (errorMessage : Option String) : DB :=
  if (findTrack db trackId).isSome then
    { db with tracks := db.tracks.map (fun t =>
        if t.id == trackId then
          { t with status := statusValue, samplerate := samplerate,
                   duration := duration, error_message := errorMessage }
        else t) }
  else db

/-- `process_audio` from `tasks.py`: on a successful decode, record
`status="loaded"` with samplerate and duration and clear the error message;
on an `AudioLoaderError`, record `status="error"` with the message. -/
def processAudio (db : DB) (trackId : String)
    (decodeResult : Except LoaderError (List ℚ × Int)) : DB × TaskOutcome :=
  match decodeResult with
  | .ok (waveform, samplerate) =>
    let duration : ℚ := (waveform.length : ℚ) / (samplerate : ℚ)
    (updateTrackRecord db trackId "loaded" (some samplerate) (some duration) none, .ok)
  | .error e =>
    (updateTrackRecord db trackId "error" none none (some (errText e)),
     .errorValue (errText e))

/-- The seven dict keys `extract_features` reads from the extraction result. -/
def requiredFeatureKeys : List String :=
  ["rms", "spectral_centroid", "peak_amplitude", "mfcc", "bpm", "key", "key_strength"]

/-- Coercion of a stored dict value into a nullable float column. -/
def Val.toRat? : Val → Option ℚ
  | .num q => some q
  | _ => none

/-- Coercion of a stored dict value into a nullable string column. -/
def Val.toStr? : Val → Option String
  | .str s => some s
  | _ => none

/-- Coercion of a stored dict value into a nullable JSON list column. -/
def Val.toArr? : Val → Option (List ℚ)
  | .arr xs => some xs
  | _ => none

/-- `extract_features` from `tasks.py`. `extraction` is the outcome of
`basic_extraction(track_path)`: an `AudioLoaderError` or the feature dict.
The task looks up the track (missing track: plain error return, no write),
turns a loader error into `status="error"` (committed), and otherwise inserts
a brand-new `AudioFeature` row and sets `status="features_ready"` in one
commit; if a feature row for this track already exists, the UNIQUE constraint
on `audio_features.track_id` rejects that commit, the session rolls back and
the exception propagates. A dict missing one of the read keys would raise
`KeyError` before any write (cannot happen for `basic_extraction` output). -/
def extractFeaturesTask (db : DB) (trackId : String)
    (extraction : Except LoaderError (List (String × Val))) : DB × TaskOutcome :=
  match findTrack db trackId with
  | none => (db, .errorValue "Track not found")
  | some _ =>
    match extraction with
    | .error exc =>
      ({ db with tracks := db.tracks.map (fun t =>
           if t.id == trackId then
             { t with status := "error", error_message := some (errText exc) }
           else t) },
       .errorValue (errText exc))
    | .ok features =>
      if requiredFeatureKeys.all (fun k => (lookupVal features k).isSome) then
        if db.features.any (fun f => f.track_id == trackId) then
          (db, .raised "IntegrityError: UNIQUE constraint on audio_features.track_id")
        else
          let row : AudioFeatureRow :=
            { track_id := trackId
              rms := (lookupVal features "rms").bind Val.toRat?
              spectral_centroid := (lookupVal features "spectral_centroid").bind Val.toRat?
              peak_amplitude := (lookupVal features "peak_amplitude").bind Val.toRat?
              mfcc := (lookupVal features "mfcc").bind Val.toArr?
              bpm := (lookupVal features "bpm").bind Val.toRat?
              key := (lookupVal features "key").bind Val.toStr?
              key_strength := (lookupVal features "key_strength").bind Val.toRat? }
          ({ db with
               features := db.features ++ [row]
               tracks := db.tracks.map (fun t =>
                 if t.id == trackId then { t with status := "features_ready" } else t) },
           .ok)
      else (db, .raised "KeyError")

/-- The three baseline scalars of a feature row, when all are present
(the dict built by `_extract_basic_feature_values` in `tasks.py`). -/
structure BasicValues where
  rms : ℚ
  spectral_centroid : ℚ
  peak_amplitude : ℚ
deriving DecidableEq

/-- `_extract_basic_feature_values(feature)` from `tasks.py`: `None` when any
of rms, spectral_centroid, peak_amplitude is NULL. -/
def extractBasicFeatureValues (f : AudioFeatureRow) : Option BasicValues :=
  match f.rms, f.spectral_centroid, f.peak_amplitude with
  | some r, some c, some p =>
    some { rms := r, spectral_centroid := c, peak_amplitude := p }
  | _, _, _ => none

/-- `compute_similarity_for_track` from `tasks.py`: resolve the source track,
its feature row and its baseline scalars (each missing step is a plain error
return with no write); then delete all of the source's outgoing scores,
score every other feature row that has all baseline scalars with
`(drms)^2 + (dcentroid)^2 + (dpeak)^2` (the inline expression of lines
211-223: no square root and no mfcc term), insert those edges, set
`has_similarity` and commit. -/
def computeSimilarityForTrack (db : DB) (trackId : String) : DB × TaskOutcome :=
  match findTrack db trackId with
  | none => (db, .errorValue "missing source track")
  | some _ =>
    match findFeature db trackId with
    | none => (db, .errorValue "No features for source track")
    | some sourceFeatures =>
      match extractBasicFeatureValues sourceFeatures with
      | none => (db, .errorValue "Incomplete source features")
      | some src =>
        let targetVectors := db.features.filterMap (fun f =>
          if f.track_id == trackId then none
          else (extractBasicFeatureValues f).map (fun v => (f.track_id, v)))
        let newScores : List SimilarityRow := targetVectors.map (fun tv =>
          { source_track_id := trackId
            target_track_id := tv.1
            score := (src.rms - tv.2.rms) ^ 2
              + (src.spectral_centroid - tv.2.spectral_centroid) ^ 2
              + (src.peak_amplitude - tv.2.peak_amplitude) ^ 2 })
        ({ db with
             scores := db.scores.filter (fun s => !(s.source_track_id == trackId))
               ++ newScores
             tracks := db.tracks.map (fun t =>
               if t.id == trackId then { t with has_similarity := true } else t) },
         .computed newScores.length)

/-- Discriminator: did the task invocation end in a propagated exception? -/
def TaskOutcome.isRaised : TaskOutcome → Bool
  | .raised _ => true
  | _ => false

/-! ### Concrete fixtures used by witnesses and counterexamples -/

/-- A fully processed track row with the given id. -/
def mkTrack (i : String) : TrackRow :=
  { id := i
    original_filename := i ++ ".wav"
    stored_path := "/uploads/" ++ i
    status := "features_ready"
    samplerate := some 44100
    duration := some 2
    error_message := none
    has_similarity := false }

/-- A feature row holding only the three baseline scalars (mfcc NULL). -/
def featBase (tid : String) (r c p : ℚ) : AudioFeatureRow :=
  { track_id := tid
    rms := some r
    spectral_centroid := some c
    peak_amplitude := some p
    mfcc := none
    bpm := none
    key := none
    key_strength := none }

/-- A feature row whose rms column is NULL. -/
def featNoRms : AudioFeatureRow :=
  { track_id := "A"
    rms := none
    spectral_centroid := some 1
    peak_amplitude := some 1
    mfcc := none
    bpm := none
    key := none
    key_strength := none }

/-- Three tracks A, B, C with baseline-only feature rows. -/
def dbThree : DB :=
  ⟨[mkTrack "A", mkTrack "B", mkTrack "C"],
   [featBase "A" 2 0 0, featBase "B" 0 0 0, featBase "C" 1 1 1], []⟩

/-- One track whose stored feature vector lacks rms. -/
def dbIncomplete : DB := ⟨[mkTrack "A"], [featNoRms], []⟩

/-- The empty store. -/
def emptyDB : DB := ⟨[], [], []⟩

/-- A track that is already features_ready and owns its feature row. -/
def dbReady : DB := ⟨[mkTrack "t1"], [featBase "t1" 1 2 3], []⟩

/-- Capability flags with every essentia algorithm present. -/
def flagsFull : EssentiaFlags := ⟨true, true, true, true, true, true, true⟩

/-- A library outcome for a healthy two-second 44.1kHz input. -/
def outcomeEx : EssentiaOutcome :=
  { audioSize := 88200
    rmsValue := 1/10
    centroidValue := 5
    peakValue := 1/2
    envelopeValues := some [1/10, 1/5]
    shapeValues := some [(1, 2, 3)]
    mfccFrames := some [[1, 2, 3, 4, 5, 6, 7, 8, 9, 10, 11, 12, 13]]
    bpmValue := some 120
    keyValue := some ("C", "major", 9/10) }

/-! ### Shared helper lemmas -/

/-- When every backend raises, the loop ends in the overall decode failure. -/
theorem loadAudioLoop_all_errors (msgs : List String) (last : Option String) :
    loadAudioLoop (msgs.map Except.error) last
      = .error (.decodeFailure "Unable to decode audio file") := by
  induction msgs generalizing last with
  | nil => rfl
  | cons m ms ih => simpa [loadAudioLoop] using ih (some m)

/-- A nonempty raw array downmixes to a nonempty mono array. -/
theorem downmix_length_ne_zero (a : RawAudio) (h : audioSize a ≠ 0) :
    (downmix a).length ≠ 0 := by
  cases a with
  | mono samples => simpa [audioSize, downmix] using h
  | multi rows channels =>
    simp only [audioSize] at h
    simp only [downmix, List.length_map]
    intro h0
    exact h (by simp [h0])

/-- Shape of a successful `_post_process`: the returned samples are the mono
downmix of the raw audio, the samplerate is passed through, and the duration
is at least the minimum. -/
theorem postProcess_ok (a : RawAudio) (sr : Int) (m : List ℚ) (sr2 : Int)
    (h : postProcess a sr = .ok (m, sr2)) :
    m = downmix a ∧ sr2 = sr ∧ audioSize a ≠ 0 ∧
      minDurationSeconds ≤ ((downmix a).length : ℚ) / (sr : ℚ) := by
  by_cases h0 : (audioSize a == 0) = true
  · simp [postProcess, h0] at h
  · by_cases h1 : ((downmix a).length : ℚ) / ((sr : Int) : ℚ) ≤ 0
    · simp [postProcess, h0, h1] at h
    · by_cases h2 : ((downmix a).length : ℚ) / ((sr : Int) : ℚ) < minDurationSeconds
      · simp [postProcess, h0, h1, h2] at h
      · simp [postProcess, h0, h1, h2] at h
        exact ⟨h.1.symm, h.2.symm, by simpa using h0, not_lt.mp h2⟩

/-- A successful backend loop result is the post-processed output of one of
the backends in the list. -/
theorem loadAudioLoop_ok (bs : List (Except String (RawAudio × Int)))
    (last : Option String) (m : List ℚ) (sr2 : Int)
    (h : loadAudioLoop bs last = .ok (m, sr2)) :
    ∃ raw, Except.ok (raw, sr2) ∈ bs ∧ postProcess raw sr2 = .ok (m, sr2) := by
  induction bs generalizing last with
  | nil => simp [loadAudioLoop] at h
  | cons b rest ih =>
    cases b with
    | error msg =>
      obtain ⟨raw, hmem, hp⟩ := ih (some msg) (by simpa [loadAudioLoop] using h)
      exact ⟨raw, by simp [hmem], hp⟩
    | ok pr =>
      obtain ⟨raw0, sr0⟩ := pr
      cases hpp : postProcess raw0 sr0 with
      | ok res =>
        have hres : res = (m, sr2) := by simpa [loadAudioLoop, hpp] using h
        subst hres
        obtain ⟨-, hsr, -, -⟩ := postProcess_ok raw0 sr0 m sr2 hpp
        subst hsr
        exact ⟨raw0, by simp, hpp⟩
      | error e =>
        obtain ⟨raw, hmem, hp⟩ := ih (some (errText e)) (by simpa [loadAudioLoop, hpp] using h)
        exact ⟨raw, by simp [hmem], hp⟩

/-! ### C6 -/

/-- C6: post-decode validation. Zero decoded samples fail with `EmptyAudio`;
a positive sample count whose duration (mono length divided by samplerate)
is below half a second fails with `TooShort`; a success returns exactly the
mono downmix (the arithmetic mean of the channels for multi-channel input)
with the samplerate passed through and the duration at least the minimum;
and whichever backend produced the raw samples, a successful `load_audio`
result is the `_post_process` output of one of the tried backends — the
validation is applied to the decode result exactly once, uniformly. -/
theorem post_decode_validation (a : RawAudio) (sr : Int)
    (rows : List (List ℚ)) (channels : Nat) (suffixLower : String)
    (bs : List (Except String (RawAudio × Int))) (m : List ℚ) (sr2 : Int) :
    (audioSize a = 0 → postProcess a sr = .error (.emptyAudio "Decoded audio is empty")) ∧
      (0 < sr → audioSize a ≠ 0 →
        ((downmix a).length : ℚ) / (sr : ℚ) < minDurationSeconds →
        postProcess a sr = .error (.tooShort "Audio duration is less than minimum")) ∧
      (postProcess a sr = .ok (m, sr2) →
        m = downmix a ∧ sr2 = sr ∧
          minDurationSeconds ≤ ((downmix a).length : ℚ) / (sr : ℚ)) ∧
      downmix (.multi rows channels) = rows.map (fun row => row.sum / (channels : ℚ)) ∧
      (loadAudio true suffixLower bs = .ok (m, sr2) →
        ∃ raw, Except.ok (raw, sr2) ∈ bs ∧ postProcess raw sr2 = .ok (m, sr2)) := by
  refine ⟨?_, ?_, ?_, rfl, ?_⟩
  · intro h0
    simp [postProcess, h0]
  · intro hsr hsz hlt
    have hlen : (downmix a).length ≠ 0 := downmix_length_ne_zero a hsz
    have hpos : (0 : ℚ) < ((downmix a).length : ℚ) / ((sr : Int) : ℚ) := by
      apply div_pos
      · exact_mod_cast Nat.pos_of_ne_zero hlen
      · exact_mod_cast hsr
    simp [postProcess, hsz, not_le.mpr hpos, hlt]
  · intro h
    obtain ⟨hm, hsr, -, hdur⟩ := postProcess_ok a sr m sr2 h
    exact ⟨hm, hsr, hdur⟩
  · intro h
    unfold loadAudio at h
    by_cases hsup : suffixLower ∈ supportedFormats
    · exact loadAudioLoop_ok bs none m sr2 (by simpa [hsup] using h)
    · simp [hsup] at h

/-- Witness for C6: a single-sample mono input at 44.1kHz is rejected as too
short. -/
theorem post_decode_validation_witness :
    postProcess (.mono [1]) 44100
      = .error (.tooShort "Audio duration is less than minimum") :=
  (post_decode_validation (.mono [1]) 44100 [] 0 ".wav" [] [] 0).2.1
    (by decide) (by decide) (by norm_num [downmix, minDurationSeconds])

/-! ### C10 -/

/-- C10: calling the Extract stage with a track id that has no Track record
returns an error value without raising and performs no write: the store is
returned unchanged and the outcome is the plain error dict. -/
theorem extract_missing_track_no_write (db : DB) (trackId : String)
    (extraction : Except LoaderError (List (String × Val)))
    (h : findTrack db trackId = none) :
    extractFeaturesTask db trackId extraction = (db, .errorValue "Track not found") := by
  unfold extractFeaturesTask
  rw [h]

/-- Witness for C10 at the empty store. -/
theorem extract_missing_track_no_write_witness :
    findTrack emptyDB "t1" = none ∧
      extractFeaturesTask emptyDB "t1" (.ok []) = (emptyDB, .errorValue "Track not found") :=
  ⟨rfl, extract_missing_track_no_write emptyDB "t1" (.ok []) rfl⟩

/-! ### C7 -/

/-- C7 counterexample: a path that does not exist and has an unsupported
extension raises `AudioDecodeError` (the file-existence check at the top of
`load_audio` fires first), not `UnsupportedFormat` — so it is not true that
every path with an unsupported extension gets `UnsupportedFormat` and no
other error kind. -/
theorem load_audio_missing_file_counterexample :
    errKindOf (loadAudio false ".txt" []) = "DecodeFailure" ∧
      "DecodeFailure" ≠ "UnsupportedFormat" :=
  ⟨rfl, by decide⟩

/-- C7 amended: for every existing path whose lowered extension is not in the
supported set, `load_audio` raises `UnsupportedFormat`, and the result does not
depend on the backends — no decode backend is attempted. -/
theorem load_audio_unsupported_extension (suffixLower : String)
    (backends : List (Except String (RawAudio × Int)))
    (h : suffixLower ∉ supportedFormats) :
    loadAudio true suffixLower backends
        = .error (.unsupportedFormat "Unsupported audio format") ∧
      loadAudio true suffixLower backends = loadAudio true suffixLower [] := by
  unfold loadAudio
  simp [h]

/-- Witness for C7 at a `.txt` path with a backend that would succeed. -/
theorem load_audio_unsupported_extension_witness :
    ".txt" ∉ supportedFormats ∧
      loadAudio true ".txt" [.ok (.mono [1, 2], 44100)]
        = .error (.unsupportedFormat "Unsupported audio format") :=
  ⟨by decide,
   (load_audio_unsupported_extension ".txt" [.ok (.mono [1, 2], 44100)] (by decide)).1⟩

/-! ### C8 -/

/-- C8 counterexample: the `subprocess.run` invocation of `_load_with_ffmpeg`
passes no timeout at all, so the backend does not apply a bounded timeout. -/
theorem ffmpeg_no_timeout_counterexample :
    ((ffmpegRun "ffmpeg" "/uploads/a.mp3" "/tmp/scratch.wav").timeout).isSome = false :=
  rfl

/-- C8 amended: the ffmpeg backend runs its subprocess with no timeout bound
(a hung subprocess is never interrupted); a non-zero exit status is treated as
a decode failure of that backend only, and when it is the last backend after
the earlier ones failed, `load_audio` ends in the overall `DecodeFailure`. -/
theorem ffmpeg_backend_failure (b p t : String) (exitCode : Int)
    (readResult : RawAudio × Int) (earlier : List String)
    (h : exitCode ≠ 0) :
    (ffmpegRun b p t).timeout = none ∧
      loadWithFfmpeg exitCode readResult = .error "ffmpeg failed to decode" ∧
      loadAudio true ".mp3" ((earlier ++ ["ffmpeg failed to decode"]).map Except.error)
        = .error (.decodeFailure "Unable to decode audio file") := by
  refine ⟨rfl, ?_, ?_⟩
  · unfold loadWithFfmpeg
    simp [h]
  · unfold loadAudio
    have hmem : ".mp3" ∈ supportedFormats := by decide
    simpa [hmem] using loadAudioLoop_all_errors (earlier ++ ["ffmpeg failed to decode"]) none

/-- Witness for C8: exit code 1 with two earlier backend failures. -/
theorem ffmpeg_backend_failure_witness :
    loadWithFfmpeg 1 (.mono [1], 44100) = .error "ffmpeg failed to decode" ∧
      loadAudio true ".mp3"
          ((["soundfile failed", "audioread failed"] ++ ["ffmpeg failed to decode"]).map Except.error)
        = .error (.decodeFailure "Unable to decode audio file") :=
  ⟨(ffmpeg_backend_failure "ffmpeg" "a.mp3" "s.wav" 1 (.mono [1], 44100)
      ["soundfile failed", "audioread failed"] (by decide)).2.1,
   (ffmpeg_backend_failure "ffmpeg" "a.mp3" "s.wav" 1 (.mono [1], 44100)
      ["soundfile failed", "audioread failed"] (by decide)).2.2⟩

/-! ### C3 -/

/-- C3 counterexample: with a source track whose stored feature vector lacks
rms, `compute_similarity_for_track` does not raise anything — it returns an
ordinary error dict — though it indeed performs no writes. -/
theorem recompute_incomplete_returns_counterexample :
    computeSimilarityForTrack dbIncomplete "A"
        = (dbIncomplete, .errorValue "Incomplete source features") ∧
      ((computeSimilarityForTrack dbIncomplete "A").2).isRaised = false := by
  refine ⟨by decide, by decide⟩

/-- C3 amended: when the source track exists but one of rms,
spectral_centroid, peak_amplitude is NULL, the call returns the error value
`Incomplete source features` — no exception — and performs no writes: the
store is returned unchanged. -/
theorem recompute_incomplete_no_writes (db : DB) (trackId : String)
    (tr : TrackRow) (f : AudioFeatureRow)
    (h1 : findTrack db trackId = some tr)
    (h2 : findFeature db trackId = some f)
    (h3 : extractBasicFeatureValues f = none) :
    computeSimilarityForTrack db trackId = (db, .errorValue "Incomplete source features") := by
  simp [computeSimilarityForTrack, h1, h2, h3]

/-- Witness for C3 at the one-track store with a NULL rms. -/
theorem recompute_incomplete_no_writes_witness :
    computeSimilarityForTrack dbIncomplete "A"
      = (dbIncomplete, .errorValue "Incomplete source features") :=
  recompute_incomplete_no_writes dbIncomplete "A" (mkTrack "A") featNoRms rfl rfl rfl

/-! ### C2 -/

/-- C2 counterexample: with the capability disabled, the mapping returned by
`basic_extraction` has no `rms_envelope` entry at all (nor the other three
extended spectral keys), even though `rms_envelope` is one of the declared
feature keys (it appears in `_placeholder_features`). -/
theorem basic_extraction_omits_keys_counterexample :
    lookupVal (basicExtraction 1 2 3 false []) "rms_envelope" = none ∧
      lookupVal (basicExtraction 1 2 3 false []) "spectral_flux" = none ∧
      lookupVal placeholderFeatures "rms_envelope" = some (Val.arr []) :=
  ⟨rfl, rfl, rfl⟩

/-- C2 amended: when the extended DSP capability is disabled,
`basic_extraction` returns a mapping with exactly the seven keys
spectral_centroid, rms, peak_amplitude, mfcc, bpm, key, key_strength: the
three baseline scalars are populated, mfcc is exactly thirteen zeros, and
bpm, key, key_strength are null; the declared keys rms_envelope,
spectral_flux, rolloff and flatness are omitted entirely, not null. -/
theorem basic_extraction_disabled_shape (r c p : ℚ) (es : List (String × Val)) :
    (basicExtraction r c p false es).map Prod.fst
        = ["spectral_centroid", "rms", "peak_amplitude", "mfcc", "bpm", "key", "key_strength"] ∧
      lookupVal (basicExtraction r c p false es) "rms" = some (Val.num r) ∧
      lookupVal (basicExtraction r c p false es) "spectral_centroid" = some (Val.num c) ∧
      lookupVal (basicExtraction r c p false es) "peak_amplitude" = some (Val.num p) ∧
      lookupVal (basicExtraction r c p false es) "mfcc" = some (Val.arr (List.replicate 13 0)) ∧
      lookupVal (basicExtraction r c p false es) "bpm" = some Val.null ∧
      lookupVal (basicExtraction r c p false es) "key" = some Val.null ∧
      lookupVal (basicExtraction r c p false es) "key_strength" = some Val.null ∧
      lookupVal (basicExtraction r c p false es) "rms_envelope" = none ∧
      lookupVal (basicExtraction r c p false es) "spectral_flux" = none ∧
      lookupVal (basicExtraction r c p false es) "rolloff" = none ∧
      lookupVal (basicExtraction r c p false es) "flatness" = none :=
  ⟨rfl, rfl, rfl, rfl, rfl, rfl, rfl, rfl, rfl, rfl, rfl, rfl⟩

/-! ### C9 -/

/-- Updating a dict never removes entries. -/
theorem dictUpdate_length (base upd : List (String × Val)) :
    base.length ≤ (dictUpdate base upd).length := by
  have h : (dictUpdate base upd).length
      = base.length
        + (upd.filter (fun kv2 => !(base.any (fun kv => kv.1 == kv2.1)))).length := by
    unfold dictUpdate
    simp
  omega

/-- Setting one dict entry never removes entries. -/
theorem dictSet_length (d : List (String × Val)) (k : String) (v : Val) :
    d.length ≤ (dictSet d k v).length :=
  dictUpdate_length d [(k, v)]

/-- The envelope family block never shrinks the dict. -/
theorem applyEnvelopeFamily_length (flags : EssentiaFlags) (outcome : EssentiaOutcome)
    (features : List (String × Val)) :
    features.length ≤ (applyEnvelopeFamily flags outcome features).length := by
  unfold applyEnvelopeFamily
  repeat' split
  all_goals first
    | exact le_rfl
    | exact dictSet_length _ _ _

/-- The spectral-shape family block never shrinks the dict. -/
theorem applyShapeFamily_length (flags : EssentiaFlags) (outcome : EssentiaOutcome)
    (features : List (String × Val)) :
    features.length ≤ (applyShapeFamily flags outcome features).length := by
  unfold applyShapeFamily
  repeat' split
  all_goals first
    | exact le_rfl
    | exact le_trans (le_trans (dictSet_length _ _ _) (dictSet_length _ _ _))
        (dictSet_length _ _ _)

/-- The MFCC family block never shrinks the dict. -/
theorem applyMfccFamily_length (flags : EssentiaFlags) (outcome : EssentiaOutcome)
    (features : List (String × Val)) :
    features.length ≤ (applyMfccFamily flags outcome features).length := by
  unfold applyMfccFamily
  repeat' split
  all_goals first
    | exact le_rfl
    | exact dictSet_length _ _ _

/-- The BPM family block never shrinks the dict. -/
theorem applyBpmFamily_length (flags : EssentiaFlags) (outcome : EssentiaOutcome)
    (features : List (String × Val)) :
    features.length ≤ (applyBpmFamily flags outcome features).length := by
  unfold applyBpmFamily
  repeat' split
  all_goals first
    | exact le_rfl
    | exact dictSet_length _ _ _

/-- The key family block never shrinks the dict. -/
theorem applyKeyFamily_length (flags : EssentiaFlags) (suffixLower : String)
    (outcome : EssentiaOutcome) (features : List (String × Val)) :
    features.length ≤ (applyKeyFamily flags suffixLower outcome features).length := by
  unfold applyKeyFamily
  repeat' split
  all_goals first
    | exact le_rfl
    | exact le_trans (dictSet_length _ _ _) (dictSet_length _ _ _)

/-- When the capability is present, the input is a wav file and the decoded
buffer is nonempty, the extraction result keeps at least the eleven
placeholder entries. -/
theorem essentiaExtraction_length (flags : EssentiaFlags) (suffixLower : String)
    (outcome : EssentiaOutcome) (hav : flags.essentiaAvailable = true)
    (hsuf : suffixLower = ".wav") (hsz : outcome.audioSize ≠ 0) :
    11 ≤ (essentiaExtraction flags suffixLower outcome).length := by
  subst hsuf
  unfold essentiaExtraction
  rw [hav]
  have h3 : (outcome.audioSize == 0) = false := by simpa using hsz
  simp only [Bool.not_true, Bool.false_eq_true, if_false, bne_self_eq_false, h3]
  have hbase : (11 : ℕ) ≤ (dictUpdate placeholderFeatures
      [("spectral_centroid", Val.num outcome.centroidValue),
       ("rms", Val.num outcome.rmsValue),
       ("peak_amplitude", Val.num outcome.peakValue)]).length :=
    le_trans (by decide) (dictUpdate_length _ _)
  exact le_trans hbase
    (le_trans (applyEnvelopeFamily_length _ _ _)
      (le_trans (applyShapeFamily_length _ _ _)
        (le_trans (applyMfccFamily_length _ _ _)
          (le_trans (applyBpmFamily_length _ _ _)
            (applyKeyFamily_length _ _ _ _)))))

/-- C9 counterexample: with every capability flag present, a non-wav input
makes `essentia_extraction` silently return the empty dict — the extended
tier is skipped by a per-call property of the input file — so downstream
`basic_extraction` keeps the bpm placeholder null. -/
theorem essentia_skips_non_wav_counterexample :
    flagsFull.essentiaAvailable = true ∧
      essentiaExtraction flagsFull ".mp3" outcomeEx = [] ∧
      lookupVal (basicExtraction 1 2 3 true (essentiaExtraction flagsFull ".mp3" outcomeEx))
          "bpm" = some Val.null :=
  ⟨rfl, rfl, rfl⟩

/-- C9 amended: whether the extended tier runs is not a function of the
capability flags alone: with the capability absent the extraction is skipped,
but even with the capability present it is also skipped — silently, returning
the empty fallback dict — whenever the per-call lowered file suffix is not
`.wav`; when the capability is present, the suffix is `.wav` and the decoded
buffer is nonempty, the extraction produces its populated dict. -/
theorem essentia_extended_tier_per_call_conditions (flags : EssentiaFlags)
    (suffixLower : String) (outcome : EssentiaOutcome) :
    (flags.essentiaAvailable = false → essentiaExtraction flags suffixLower outcome = []) ∧
      (suffixLower ≠ ".wav" → essentiaExtraction flags suffixLower outcome = []) ∧
      (flags.essentiaAvailable = true → suffixLower = ".wav" → outcome.audioSize ≠ 0 →
        essentiaExtraction flags suffixLower outcome ≠ []) := by
  refine ⟨?_, ?_, ?_⟩
  · intro h
    simp [essentiaExtraction, h]
  · intro h
    have hb : (suffixLower != ".wav") = true := bne_iff_ne.mpr h
    cases hav : flags.essentiaAvailable <;> simp [essentiaExtraction, hav, hb]
  · intro hav hsuf hsz hnil
    have hlen := essentiaExtraction_length flags suffixLower outcome hav hsuf hsz
    rw [hnil] at hlen
    simp at hlen

/-- Witness for C9 at the full capability flags on a wav input. -/
theorem essentia_extended_tier_per_call_conditions_witness :
    essentiaExtraction flagsFull ".wav" outcomeEx ≠ [] :=
  (essentia_extended_tier_per_call_conditions flagsFull ".wav" outcomeEx).2.2
    rfl rfl (by decide)

/-! ### C1 -/

/-- C1 counterexample: for three tracks with only baseline scalars, the score
the task stores for the first edge is `4 = (2-0)^2 + 0 + 0` — the plain sum
of squared scalar differences — while the claimed formula
`sqrt(1*(drms)^2 + 1*(dcentroid)^2 + 1*(dpeak)^2)` (no mfcc term, as neither
row has an mfcc vector) gives `2`; the stored score is not the claimed one. -/
theorem similarity_score_formula_counterexample :
    (computeSimilarityForTrack dbThree "A").1.scores
        = [⟨"A", "B", 4⟩, ⟨"A", "C", 3⟩] ∧
      Real.sqrt (1 * ((2 : ℝ) - 0) ^ 2 + 1 * ((0 : ℝ) - 0) ^ 2 + 1 * ((0 : ℝ) - 0) ^ 2)
        = 2 ∧
      ((4 : ℚ) : ℝ) ≠ 2 := by
  refine ⟨?_, ?_, by norm_num⟩
  · have hBA : ("B" : String) ≠ "A" := by decide
    have hCA : ("C" : String) ≠ "A" := by decide
    norm_num [computeSimilarityForTrack, dbThree, mkTrack, featBase, findTrack,
      findFeature, extractBasicFeatureValues, List.filterMap_cons, List.filterMap_nil,
      hBA, hCA]
  rw [show (1 * ((2 : ℝ) - 0) ^ 2 + 1 * ((0 : ℝ) - 0) ^ 2 + 1 * ((0 : ℝ) - 0) ^ 2)
      = 2 ^ 2 by norm_num]
  exact Real.sqrt_sq (by norm_num)

/-- C1 amended: for a source satisfying the precondition, recompute replaces
the source's outgoing edges with one edge per feature row (other than the
source) that has all three baseline scalars, and each stored score is the
raw sum `(drms)^2 + (dcentroid)^2 + (dpeak)^2` of squared baseline
differences — no square root is taken, no weighting is applied, and stored
mfcc vectors never contribute; the returned count is the number of valid
targets. -/
theorem similarity_scores_squared (db : DB) (trackId : String)
    (tr : TrackRow) (f : AudioFeatureRow) (src : BasicValues)
    (h1 : findTrack db trackId = some tr)
    (h2 : findFeature db trackId = some f)
    (h3 : extractBasicFeatureValues f = some src) :
    computeSimilarityForTrack db trackId =
      ({ db with
           scores := db.scores.filter (fun s => !(s.source_track_id == trackId)) ++
             (db.features.filterMap (fun g =>
               if g.track_id == trackId then none
               else (extractBasicFeatureValues g).map (fun v => (g.track_id, v)))).map
               (fun tv =>
                 { source_track_id := trackId
                   target_track_id := tv.1
                   score := (src.rms - tv.2.rms) ^ 2
                     + (src.spectral_centroid - tv.2.spectral_centroid) ^ 2
                     + (src.peak_amplitude - tv.2.peak_amplitude) ^ 2 })
           tracks := db.tracks.map (fun t =>
             if t.id == trackId then { t with has_similarity := true } else t) },
       .computed (db.features.filterMap (fun g =>
         if g.track_id == trackId then none
         else (extractBasicFeatureValues g).map (fun v => (g.track_id, v)))).length) := by
  simp [computeSimilarityForTrack, h1, h2, h3]

/-- Witness for C1: the three-track baseline-only scenario yields exactly the
two edges A to B and A to C with squared-distance scores 4 and 3. -/
theorem similarity_scores_squared_witness :
    (computeSimilarityForTrack dbThree "A").1.scores
        = [⟨"A", "B", 4⟩, ⟨"A", "C", 3⟩] ∧
      (computeSimilarityForTrack dbThree "A").2 = .computed 2 := by
  have h := similarity_scores_squared dbThree "A" (mkTrack "A") (featBase "A" 2 0 0)
    ⟨2, 0, 0⟩ rfl rfl rfl
  have hBA : ("B" : String) ≠ "A" := by decide
  have hCA : ("C" : String) ≠ "A" := by decide
  refine ⟨?_, ?_⟩ <;> rw [h] <;>
    norm_num [dbThree, mkTrack, featBase, extractBasicFeatureValues,
      List.filterMap_cons, List.filterMap_nil, hBA, hCA]

/-! ### C5 -/

/-- C5: re-delivering Extract for a track that already owns its feature row
does not overwrite that row: the insert of a second `AudioFeature` with the
same `track_id` violates the UNIQUE constraint, the transaction rolls back —
leaving the store exactly as it was, still with the single original row —
and the task raises instead of succeeding. -/
theorem extract_redelivery_unique_violation :
    extractFeaturesTask dbReady "t1" (.ok (basicExtraction 1 2 3 false []))
        = (dbReady, .raised "IntegrityError: UNIQUE constraint on audio_features.track_id") ∧
      (dbReady.features.filter (fun f => f.track_id == "t1")).length = 1 ∧
      (findTrack dbReady "t1").map (fun t => t.status) = some "features_ready" :=
  ⟨by decide, by decide, by decide⟩

/-! ### C4 -/

/-- Statuses after a conditional per-row update all come from the old rows or
from the single status the updater writes. -/
theorem statuses_map_update (tracks : List TrackRow) (p : TrackRow → Bool)
    (f : TrackRow → TrackRow) (st : String) (hf : ∀ t, (f t).status = st)
    (s : String)
    (h : s ∈ (tracks.map (fun t => if p t then f t else t)).map (fun t => t.status)) :
    s ∈ tracks.map (fun t => t.status) ∨ s = st := by
  rw [List.map_map] at h
  obtain ⟨t, ht, hts⟩ := List.mem_map.mp h
  by_cases hp : p t
  · right
    rw [← hts]
    simp [Function.comp, hp, hf]
  · left
    exact List.mem_map.mpr ⟨t, ht, by simpa [Function.comp, hp] using hts⟩

/-- `_update_track_record` writes no status other than the one passed in. -/
theorem updateTrackRecord_statuses (db : DB) (tid st : String) (sr : Option Int)
    (dur : Option ℚ) (em : Option String) (s : String)
    (h : s ∈ (updateTrackRecord db tid st sr dur em).tracks.map (fun t => t.status)) :
    s ∈ db.tracks.map (fun t => t.status) ∨ s = st := by
  unfold updateTrackRecord at h
  by_cases hf : (findTrack db tid).isSome = true
  · simp only [hf, if_true] at h
    exact statuses_map_update db.tracks _ _ st (fun t => rfl) s h
  · simp only [hf, if_false] at h
    exact Or.inl h

/-- `upload_track` only ever introduces the status `processing`. -/
theorem uploadTrack_statuses (db : DB) (tid fn sp : String)
    (v : Except LoaderError (List ℚ × Int)) (s : String)
    (h : s ∈ (uploadTrack db tid fn sp v).1.tracks.map (fun t => t.status)) :
    s ∈ db.tracks.map (fun t => t.status) ∨ s = "processing" := by
  cases v with
  | error e =>
    left
    simpa [uploadTrack] using h
  | ok pr =>
    simpa [uploadTrack] using h

/-- `process_audio` only ever writes the statuses `loaded` and `error`. -/
theorem processAudio_statuses (db : DB) (tid : String)
    (dec : Except LoaderError (List ℚ × Int)) (s : String)
    (h : s ∈ (processAudio db tid dec).1.tracks.map (fun t => t.status)) :
    s ∈ db.tracks.map (fun t => t.status) ∨ s = "loaded" ∨ s = "error" := by
  cases dec with
  | ok pr =>
    rcases updateTrackRecord_statuses db tid "loaded" _ _ _ s
        (by simpa [processAudio] using h) with h1 | h1
    · exact Or.inl h1
    · exact Or.inr (Or.inl h1)
  | error e =>
    rcases updateTrackRecord_statuses db tid "error" _ _ _ s
        (by simpa [processAudio] using h) with h1 | h1
    · exact Or.inl h1
    · exact Or.inr (Or.inr h1)

/-- `extract_features` only ever writes `features_ready` and `error`. -/
theorem extractFeatures_statuses (db : DB) (tid : String)
    (ex : Except LoaderError (List (String × Val))) (s : String)
    (h : s ∈ (extractFeaturesTask db tid ex).1.tracks.map (fun t => t.status)) :
    s ∈ db.tracks.map (fun t => t.status) ∨ s = "features_ready" ∨ s = "error" := by
  unfold extractFeaturesTask at h
  cases hft : findTrack db tid with
  | none =>
    simp only [hft] at h
    exact Or.inl h
  | some tr =>
    cases ex with
    | error e =>
      simp only [hft] at h
      rcases statuses_map_update db.tracks _ _ "error" (fun t => rfl) s h with h1 | h1
      · exact Or.inl h1
      · exact Or.inr (Or.inr h1)
    | ok features =>
      simp only [hft] at h
      by_cases hall : (requiredFeatureKeys.all (fun k => (lookupVal features k).isSome)) = true
      · by_cases hany : (db.features.any (fun f => f.track_id == tid)) = true
        · simp only [hall, hany, if_true] at h
          exact Or.inl h
        · simp only [hall, hany, if_true, if_false] at h
          rcases statuses_map_update db.tracks _ _ "features_ready" (fun t => rfl) s h
            with h1 | h1
          · exact Or.inl h1
          · exact Or.inr (Or.inl h1)
      · simp only [hall, if_false] at h
        exact Or.inl h

/-- `compute_similarity_for_track` never changes any status. -/
theorem map_status_set_has_similarity (l : List TrackRow) (tid : String) :
    (l.map (fun t => if t.id == tid then { t with has_similarity := true } else t)).map
        (fun t => t.status)
      = l.map (fun t => t.status) := by
  induction l with
  | nil => rfl
  | cons t ts ih =>
    simp only [List.map_cons, ih]
    by_cases hp : (t.id == tid) = true <;> simp [hp]

/-- The similarity task leaves the status column of every track unchanged. -/
theorem computeSimilarity_statuses (db : DB) (tid : String) :
    (computeSimilarityForTrack db tid).1.tracks.map (fun t => t.status)
      = db.tracks.map (fun t => t.status) := by
  unfold computeSimilarityForTrack
  cases h1 : findTrack db tid with
  | none => simp only [h1]
  | some tr =>
    cases h2 : findFeature db tid with
    | none => simp only [h1, h2]
    | some f =>
      cases h3 : extractBasicFeatureValues f with
      | none => simp only [h1, h2, h3]
      | some src =>
        simp only [h1, h2, h3]
        exact map_status_set_has_similarity db.tracks tid

/-- C4 counterexample: the upload route persists the status `processing`,
which is not one of the five claimed enum values (and the claimed state
machine has no edge producing it). -/
theorem upload_persists_processing_counterexample :
    (uploadTrack emptyDB "t1" "a.wav" "/uploads/a.wav" (.ok ([1], 44100))).1.tracks.map
        (fun t => t.status) = ["processing"] ∧
      (["uploaded", "loaded", "extracting", "features_ready", "error"].contains
        "processing") = false :=
  ⟨rfl, by decide⟩

/-- C4 amended: every status value the embedded operations persist is one of
`processing` (written by upload), `loaded` (decode success), `error` (decode
or extraction failure) and `features_ready` (extraction success) — the
claimed values `uploaded` and `extracting` are never written, and the
similarity task never touches the status column; each writer stamps its
status unconditionally rather than along guarded edges of a state machine. -/
theorem persisted_status_values (db : DB) (tid fn sp : String)
    (v dec : Except LoaderError (List ℚ × Int))
    (ex : Except LoaderError (List (String × Val))) (s : String) :
    (s ∈ (uploadTrack db tid fn sp v).1.tracks.map (fun t => t.status) →
        s ∈ db.tracks.map (fun t => t.status) ∨ s = "processing") ∧
      (s ∈ (processAudio db tid dec).1.tracks.map (fun t => t.status) →
        s ∈ db.tracks.map (fun t => t.status) ∨ s = "loaded" ∨ s = "error") ∧
      (s ∈ (extractFeaturesTask db tid ex).1.tracks.map (fun t => t.status) →
        s ∈ db.tracks.map (fun t => t.status) ∨ s = "features_ready" ∨ s = "error") ∧
      (computeSimilarityForTrack db tid).1.tracks.map (fun t => t.status)
        = db.tracks.map (fun t => t.status) :=
  ⟨uploadTrack_statuses db tid fn sp v s, processAudio_statuses db tid dec s,
   extractFeatures_statuses db tid ex s, computeSimilarity_statuses db tid⟩

/-- A one-track store whose track is still in the processing state. -/
def dbProc : DB := ⟨[{ mkTrack "t1" with status := "processing" }], [], []⟩

/-- Witness for C4: a successful decode on a processing track writes the
status loaded. -/
theorem persisted_status_values_witness :
    "loaded" ∈ (processAudio dbProc "t1" (.ok ([1], 44100))).1.tracks.map
        (fun t => t.status) ∧
      ("loaded" ∈ dbProc.tracks.map (fun t => t.status) ∨ "loaded" = "loaded"
        ∨ "loaded" = "error") :=
  ⟨by decide,
   (persisted_status_values dbProc "t1" "a.wav" "/uploads/a.wav" (.ok ([1], 44100))
      (.ok ([1], 44100)) (.ok []) "loaded").2.1 (by decide)⟩

end BrainJelly
